import Mathlib

/-!
# Print bed model of the slicer GUI (`src/slic3r/GUI/3DBed.hpp`)

A shallow embedding of the classes declared in `3DBed.hpp`:

* `GeometryBuffer` (present when `ENABLE_LEGACY_OPENGL_REMOVAL` is off),
* `Bed3D::Axes` (present when `ENABLE_WORLD_COORDINATE` is off),
* `Bed3D` itself: its data members with their default member initialisers and
  the member functions whose bodies are written inline in the header.

The header only declares `set_shape`, `detect_type`, `contains` and
`point_projection`; their bodies live in a translation unit that is not part
of the sources at hand.  They are modelled from the prose specification, and
every such definition says so in its doc comment.

Conventions.  `unsigned int` is a natural number reduced modulo `2 ^ 32`,
`size_t` one reduced modulo `2 ^ 64`.  The C++ scalar types `double` and
`float` are kept abstract (`Externals.double`, `Externals.float`): values are
only stored, copied, compared and, once, added, so no rounding behaviour is
assumed anywhere.  Equality on `double` is Lean equality; an IEEE NaN, which
is not equal to itself, is outside the model.
-/

namespace Slic3r.GUI

/-! ## Scalars, vectors and the types of other headers -/

/-- Width of `unsigned int`. -/
def UINT_BITS : Nat := 32

/-- Width of `size_t`. -/
def SIZE_BITS : Nat := 64

/-- The cast `(unsigned int) n`. -/
def toUInt (n : Nat) : Nat := n % 2 ^ UINT_BITS

/-- A value computed in `size_t`. -/
def toSize (n : Nat) : Nat := n % 2 ^ SIZE_BITS

/-- Eigen column vector with two coefficients (`Vec2d`, `Vec2f`). -/
structure Vec2 (α : Type) where
  x : α
  y : α
deriving DecidableEq, Repr

/-- Eigen column vector with three coefficients (`Vec3d`, `Vec3f`). -/
structure Vec3 (α : Type) where
  x : α
  y : α
  z : α
deriving DecidableEq, Repr

/-- The constant `Vec2f::Zero()`. -/
def Vec2.Zero {α : Type} (zero : α) : Vec2 α := ⟨zero, zero⟩

/-- The constant `Vec3d::Zero()` / `Vec3f::Zero()`. -/
def Vec3.Zero {α : Type} (zero : α) : Vec3 α := ⟨zero, zero, zero⟩

/-- What `3DBed.hpp` takes from the headers it includes: the two floating
point types with the few operations the header applies to them, and the
rendering resources (`GLModel`, `GLTexture`, `PickingModel`,
`BoundingBoxf3`), each with its default-constructed value.  `Geometry` is the
type of the three bed geometries: `GLModel` when
`ENABLE_LEGACY_OPENGL_REMOVAL` is on, `GeometryBuffer` otherwise. -/
structure Externals where
  double : Type
  float : Type
  double_zero : double
  double_eq : DecidableEq double
  float_zero : float
  float_one : float
  float_add : float → float → float
  GLModel : Type
  GLModel_default : GLModel
  GLModel_reset : GLModel → GLModel
  Geometry : Type
  Geometry_default : Geometry
  GLTexture : Type
  GLTexture_default : GLTexture
  PickingModel : Type
  PickingModel_default : PickingModel
  BoundingBoxf3 : Type
  BoundingBoxf3_default : BoundingBoxf3

instance (E : Externals) : DecidableEq E.double := E.double_eq

/-- The type `Pointfs` of libslic3r, a `std::vector<Vec2d>`: the bed shape,
an "ordered sequence of 2D points". -/
abbrev Pointfs (E : Externals) : Type := List (Vec2 E.double)

/-- Modelled from the spec: the type `Point` of libslic3r (its header is
missing), the argument of `contains` and `point_projection`: a point with
integer (scaled) coordinates. -/
structure Point where
  x : Int
  y : Int
deriving DecidableEq, Repr

/-- Modelled from the spec: the type `Polygon` of libslic3r (its header is
missing), the type of the collision polygon: the closed loop through
`points`. -/
structure Polygon where
  points : List Point
deriving DecidableEq, Repr

/-- Modelled from the spec: the type `ExPolygon` of libslic3r (its header is
missing), the type of the bed contour, a "2D area representation (possibly
with holes)": an outer contour and its holes. -/
structure ExPolygon where
  contour : Polygon
  holes : List Polygon
deriving DecidableEq, Repr

/-- Modelled from the spec: the default-constructed `Polygon` (its
constructor is missing), the "empty polygon" the queries operate against
before any `set_shape`: it has no points. -/
def Polygon.empty : Polygon := ⟨[]⟩

/-- Modelled from the spec: the default-constructed `ExPolygon` (its
constructor is missing): empty contour, no holes. -/
def ExPolygon.empty : ExPolygon := ⟨Polygon.empty, []⟩

/-! ## `GeometryBuffer` -/

/-- The nested `GeometryBuffer::Vertex`. -/
structure GeometryBuffer.Vertex (E : Externals) where
  position : Vec3 E.float
  tex_coords : Vec2 E.float

/-- Default member initialisers of `Vertex`. -/
def GeometryBuffer.Vertex.init (E : Externals) : GeometryBuffer.Vertex E :=
  { position := Vec3.Zero E.float_zero, tex_coords := Vec2.Zero E.float_zero }

/-- The class `GeometryBuffer`: its only data member is `m_vertices`. -/
structure GeometryBuffer (E : Externals) where
  m_vertices : List (GeometryBuffer.Vertex E)

/-- The call `m_vertices.size()`, a `size_t`. -/
def GeometryBuffer.size {E : Externals} (g : GeometryBuffer E) : Nat :=
  g.m_vertices.length

/-- `get_vertex_data_size() { return (unsigned int)(5 * sizeof(float)); }`;
`sizeof(float)` is a constant of the platform and is passed in. -/
def GeometryBuffer.get_vertex_data_size (sizeof_float : Nat) : Nat :=
  toUInt (toSize (5 * sizeof_float))

/-- `get_vertices_data_size() { return (unsigned int)m_vertices.size() * get_vertex_data_size(); }`,
a product of two `unsigned int`. -/
def GeometryBuffer.get_vertices_data_size {E : Externals} (sizeof_float : Nat)
    (g : GeometryBuffer E) : Nat :=
  toUInt (toUInt g.size * GeometryBuffer.get_vertex_data_size sizeof_float)

/-- `get_position_offset() { return 0; }`. -/
def GeometryBuffer.get_position_offset : Nat := 0

/-- `get_tex_coords_offset() { return (size_t)(3 * sizeof(float)); }`. -/
def GeometryBuffer.get_tex_coords_offset (sizeof_float : Nat) : Nat :=
  toSize (3 * sizeof_float)

/-- `get_vertices_count() { return (unsigned int)m_vertices.size(); }`. -/
def GeometryBuffer.get_vertices_count {E : Externals} (g : GeometryBuffer E) : Nat :=
  toUInt g.size

/-! ## `Bed3D::Axes` -/

/-- The four `static const float` members of `Bed3D::Axes`.  The header
declares them; their values are given in another file. -/
structure Axes.Constants (E : Externals) where
  DefaultStemRadius : E.float
  DefaultStemLength : E.float
  DefaultTipRadius : E.float
  DefaultTipLength : E.float

/-- The data members of `Bed3D::Axes`. -/
structure Axes (E : Externals) where
  m_origin : Vec3 E.double
  m_stem_length : E.float
  m_arrow : E.GLModel

/-- Default member initialisers: `m_origin{ Vec3d::Zero() }`,
`m_stem_length{ DefaultStemLength }`, a default `GLModel`. -/
def Axes.init {E : Externals} (c : Axes.Constants E) : Axes E :=
  { m_origin := Vec3.Zero E.double_zero
    m_stem_length := c.DefaultStemLength
    m_arrow := E.GLModel_default }

/-- `get_origin() const { return m_origin; }`. -/
def Axes.get_origin {E : Externals} (a : Axes E) : Vec3 E.double := a.m_origin

/-- `set_origin(const Vec3d& origin) { m_origin = origin; }`. -/
def Axes.set_origin {E : Externals} (a : Axes E) (origin : Vec3 E.double) : Axes E :=
  { a with m_origin := origin }

/-- `set_stem_length(float length) { m_stem_length = length; m_arrow.reset(); }`. -/
def Axes.set_stem_length {E : Externals} (a : Axes E) (length : E.float) : Axes E :=
  { a with m_stem_length := length, m_arrow := E.GLModel_reset a.m_arrow }

/-- `get_total_length() const { return m_stem_length + DefaultTipLength; }`. -/
def Axes.get_total_length {E : Externals} (c : Axes.Constants E) (a : Axes E) : E.float :=
  E.float_add a.m_stem_length c.DefaultTipLength

/-! ## `Bed3D`: data members and inline member functions -/

/-- The enumeration `Bed3D::Type`; `BedType` because `Type` is reserved. -/
inductive BedType where
  | System
  | Custom
deriving DecidableEq, Repr

/-- Modelled from the spec: the class `BuildVolume` (its header
`libslic3r/BuildVolume.hpp` is missing).  The spec: "derived from
BedShapePolygon + max print height". -/
structure BuildVolume (E : Externals) where
  bed_shape : Pointfs E
  max_print_height : E.double

/-- Modelled from the spec: the default-constructed `BuildVolume` (its
constructor is missing), the build volume of the Uninitialized state, "no
shape set": no bed shape, height zero. -/
def BuildVolume.init (E : Externals) : BuildVolume E :=
  { bed_shape := [], max_print_height := E.double_zero }

/-- The data members of `Bed3D`, in the order of the header.  `m_contour`
exists when `ENABLE_LEGACY_OPENGL_REMOVAL` is on and `m_vbo_id` when it is
off; both are kept.  `m_axes` is the `Axes` of the configuration without
`ENABLE_WORLD_COORDINATE`. -/
structure Bed3D (E : Externals) where
  m_build_volume : BuildVolume E
  m_type : BedType
  m_texture_filename : String
  m_model_filename : String
  m_extended_bounding_box : E.BoundingBoxf3
  m_contour : ExPolygon
  m_polygon : Polygon
  m_triangles : E.Geometry
  m_gridlines : E.Geometry
  m_contourlines : E.Geometry
  m_texture : E.GLTexture
  m_temp_texture : E.GLTexture
  m_model : E.PickingModel
  m_model_offset : Vec3 E.double
  m_vbo_id : Nat
  m_axes : Axes E
  m_scale_factor : E.float

/-- `Bed3D() = default;` with the default member initialisers
`m_type{ Type::Custom }`, `m_model_offset{ Vec3d::Zero() }`, `m_vbo_id{ 0 }`,
`m_scale_factor{ 1.0f }`; the other members are default-constructed. -/
def Bed3D.init {E : Externals} (c : Axes.Constants E) : Bed3D E :=
  { m_build_volume := BuildVolume.init E
    m_type := BedType.Custom
    m_texture_filename := ""
    m_model_filename := ""
    m_extended_bounding_box := E.BoundingBoxf3_default
    m_contour := ExPolygon.empty
    m_polygon := Polygon.empty
    m_triangles := E.Geometry_default
    m_gridlines := E.Geometry_default
    m_contourlines := E.Geometry_default
    m_texture := E.GLTexture_default
    m_temp_texture := E.GLTexture_default
    m_model := E.PickingModel_default
    m_model_offset := Vec3.Zero E.double_zero
    m_vbo_id := 0
    m_axes := Axes.init c
    m_scale_factor := E.float_one }

/-- A call of a `const` member function `f` on the object `obj`: the value
returned and the object after the call, which `const` keeps as it was. -/
def call_const {σ α : Type} (f : σ → α) (obj : σ) : α × σ := (f obj, obj)

/-- `build_volume() const { return m_build_volume; }`. -/
def Bed3D.build_volume {E : Externals} (b : Bed3D E) : BuildVolume E := b.m_build_volume

/-- `get_type() const { return m_type; }`. -/
def Bed3D.get_type {E : Externals} (b : Bed3D E) : BedType := b.m_type

/-- `is_custom() const { return m_type == Type::Custom; }`. -/
def Bed3D.is_custom {E : Externals} (b : Bed3D E) : Bool := b.m_type == BedType.Custom

/-- `extended_bounding_box() const { return m_extended_bounding_box; }`. -/
def Bed3D.extended_bounding_box {E : Externals} (b : Bed3D E) : E.BoundingBoxf3 :=
  b.m_extended_bounding_box

/-! ## The polygon queries of libslic3r used by `contains` and `point_projection` -/

/-- Modelled from the spec: the edges of a `Polygon` (libslic3r, missing),
the closed loop through its points: each point joined to the next one, the
last one joined to the first.  A polygon without points has no edge. -/
def Polygon.lines (poly : Polygon) : List (Point × Point) :=
  match poly.points with
  | [] => []
  | a :: rest => List.zip (a :: rest) (rest ++ [a])

/-- Modelled from the spec: the crossing test of the containment query
(libslic3r, missing).  Whether the edge from `e.1` to `e.2` crosses the
horizontal ray that leaves `p` towards larger `x`, in exact integer
arithmetic. -/
def Polygon.crosses (p : Point) (e : Point × Point) : Bool :=
  let a := e.1
  let b := e.2
  if decide (a.y > p.y) != decide (b.y > p.y) then
    if b.y > a.y then
      decide ((p.x - a.x) * (b.y - a.y) < (b.x - a.x) * (p.y - a.y))
    else
      decide ((b.x - a.x) * (p.y - a.y) < (p.x - a.x) * (b.y - a.y))
  else false

/-- Modelled from the spec: `Polygon::contains` of libslic3r (not in the
sources), the containment query `contains` is answered with.  The spec fixes
no algorithm; the usual even-odd rule is taken: the answer starts as `false`
and flips at every edge the ray from the point crosses. -/
def Polygon.contains (poly : Polygon) (p : Point) : Bool :=
  poly.lines.foldl (fun inside e => if Polygon.crosses p e then !inside else inside) false

/-- Modelled from the spec: the distance the projection query minimises
(libslic3r, missing): the squared Euclidean distance of two points. -/
def Point.dist2 (p q : Point) : Int := (p.x - q.x) ^ 2 + (p.y - q.y) ^ 2

/-- Modelled from the spec: one step of the projection query (libslic3r,
missing), the search for the closest boundary point: `best` holds the
candidate so far and its squared distance, `none` before the first edge. -/
def Polygon.closer (closest : Point → Point × Point → Point) (point : Point)
    (best : Point × Option Int) (e : Point × Point) : Point × Option Int :=
  let c := closest point e
  let d := Point.dist2 point c
  match best.2 with
  | none => (c, some d)
  | some dmin => if d < dmin then (c, some d) else best

/-- Modelled from the spec: `Polygon::point_projection` of libslic3r (not in
the sources).  The projection starts as the query point itself and is replaced
by the closest point found on an edge; `closest` gives the point of one edge
nearest to the query point (it rounds to integer coordinates, which the spec
leaves open). -/
def Polygon.point_projection (closest : Point → Point × Point → Point) (poly : Polygon)
    (point : Point) : Point :=
  (poly.lines.foldl (Polygon.closer closest point) (point, none)).1

/-- Modelled from the spec: `Bed3D::contains`, declared in the header, body
missing.  The spec: `contains(point)` and `point_projection(point)` "operate
against CollisionPolygon, not BuildVolume". -/
def Bed3D.contains {E : Externals} (b : Bed3D E) (point : Point) : Bool :=
  b.m_polygon.contains point

/-- Modelled from the spec: `Bed3D::point_projection`, declared in the header,
body missing; it operates against the collision polygon like `contains`. -/
def Bed3D.point_projection {E : Externals} (closest : Point → Point × Point → Point)
    (b : Bed3D E) (point : Point) : Point :=
  b.m_polygon.point_projection closest point

/-! ## Classification and `set_shape` -/

/-- Modelled from the spec: one row of the "fixed catalog of known bed
outlines, each associated with a bundled texture and/or 3D model asset"
(either path may be empty). -/
structure CatalogEntry (E : Externals) where
  outline : Pointfs E
  texture : String
  model : String

/-- Modelled from the spec: the collaborators `set_shape` drives, all of them
missing from the sources.
* ShapeClassifier: the `catalog` and `same_outline`, the comparison of two
  outlines "after normalizing translation" and "within a small numeric
  tolerance".
* GeometryBuilder: `to_contour` (BedContour from the bed shape), `offset`
  (CollisionPolygon, "offsetting BedContour outward by a small fixed margin")
  and the three geometries built from the contour.
* AssetManager: `load_texture` gives the final texture and its temporary
  placeholder for a path, `load_model` the model.
* `calc_extended_bounding_box`: the box "enclosing the bed polygon, the axes
  indicator, and the optional 3D model" with its offset. -/
structure Collaborators (E : Externals) where
  catalog : List (CatalogEntry E)
  same_outline : Pointfs E → Pointfs E → Bool
  to_contour : Pointfs E → ExPolygon
  offset : ExPolygon → Polygon
  init_triangles : ExPolygon → E.Geometry
  init_gridlines : ExPolygon → E.Geometry
  init_contourlines : ExPolygon → E.Geometry
  load_texture : String → E.GLTexture × E.GLTexture
  load_model : String → E.PickingModel
  calc_extended_bounding_box :
    BuildVolume E → Axes E → E.PickingModel → Vec3 E.double → E.BoundingBoxf3

/-- Modelled from the spec: `Bed3D::detect_type`, declared `static` in the
header with the shape as only argument, body missing.  Spec 4.1: fewer than 3
points is classified Custom; a match in the catalog gives System with the
paths of the entry; no match gives Custom with both paths empty.  The triple
is (type, texture path, model path). -/
def Bed3D.detect_type {E : Externals} (k : Collaborators E) (shape : Pointfs E) :
    BedType × String × String :=
  if shape.length < 3 then (BedType.Custom, "", "")
  else
    match k.catalog.find? (fun e => k.same_outline shape e.outline) with
    | some e => (BedType.System, e.texture, e.model)
    | none => (BedType.Custom, "", "")

/-- Modelled from the spec: `request_texture` of the AssetManager.  Spec 4.3:
"Re-requesting with an empty path clears the corresponding asset and any
placeholder". -/
def Collaborators.request_texture {E : Externals} (k : Collaborators E) (path : String) :
    E.GLTexture × E.GLTexture :=
  if path = "" then (E.GLTexture_default, E.GLTexture_default) else k.load_texture path

/-- Modelled from the spec: `request_model` of the AssetManager; an empty
path clears the model. -/
def Collaborators.request_model {E : Externals} (k : Collaborators E) (path : String) :
    E.PickingModel :=
  if path = "" then E.PickingModel_default else k.load_model path

/-- Modelled from the spec: `Bed3D::set_shape`, declared in the header, body
missing.  The result is the returned `changed` flag and the bed afterwards.
The steps are those of spec 4.4.
1. A shape of fewer than 3 points is degenerate.  Following section 7 and
   scenario 4 it is treated "as Custom with an empty/degenerate geometry
   set" and the call does "still update BuildVolume".
2. Classification: `force_as_custom` "short-circuits to Custom regardless of
   match, discarding any matched asset paths"; otherwise `detect_type`.  A
   custom path the caller supplies overrides the path of the catalog.
3. BuildVolume is rebuilt from shape and height.
4. BedContour, CollisionPolygon and the three geometries are rebuilt.
5. Texture and model are requested.
6. The extended bounding box is recomputed.
7. `changed` tells whether the bed polygon differs from the previous one; a
   change of the height alone counts as no change (also the comment above the
   declaration in the header). -/
def Bed3D.set_shape {E : Externals} (k : Collaborators E) (b : Bed3D E)
    (bed_shape : Pointfs E) (max_print_height : E.double)
    (custom_texture custom_model : String) (force_as_custom : Bool) : Bool × Bed3D E :=
  let degenerate : Bool := decide (bed_shape.length < 3)
  let cls : BedType × String × String :=
    if force_as_custom then (BedType.Custom, "", "") else Bed3D.detect_type k bed_shape
  let texture_filename := if custom_texture = "" then cls.2.1 else custom_texture
  let model_filename := if custom_model = "" then cls.2.2 else custom_model
  let changed : Bool := decide (b.m_build_volume.bed_shape ≠ bed_shape)
  let build_volume : BuildVolume E :=
    { bed_shape := bed_shape, max_print_height := max_print_height }
  let contour := if degenerate then ExPolygon.empty else k.to_contour bed_shape
  let polygon := if degenerate then Polygon.empty else k.offset contour
  let triangles := if degenerate then E.Geometry_default else k.init_triangles contour
  let gridlines := if degenerate then E.Geometry_default else k.init_gridlines contour
  let contourlines := if degenerate then E.Geometry_default else k.init_contourlines contour
  let textures := k.request_texture texture_filename
  let model := k.request_model model_filename
  (changed,
    { b with
      m_build_volume := build_volume
      m_type := cls.1
      m_texture_filename := texture_filename
      m_model_filename := model_filename
      m_extended_bounding_box :=
        k.calc_extended_bounding_box build_volume b.m_axes model b.m_model_offset
      m_contour := contour
      m_polygon := polygon
      m_triangles := triangles
      m_gridlines := gridlines
      m_contourlines := contourlines
      m_texture := textures.1
      m_temp_texture := textures.2
      m_model := model })

/-! ## A concrete instance, used to evaluate the definitions -/

/-- Externals with integer scalars and rendering resources that only record
what they were built from. -/
abbrev Externals.sample : Externals :=
  { double := Int
    float := Int
    double_zero := 0
    double_eq := inferInstance
    float_zero := 0
    float_one := 1
    float_add := fun a b => a + b
    GLModel := Nat
    GLModel_default := 0
    GLModel_reset := fun _ => 0
    Geometry := List Point
    Geometry_default := []
    GLTexture := String
    GLTexture_default := ""
    PickingModel := String
    PickingModel_default := ""
    BoundingBoxf3 := List (Vec2 Int) × Int
    BoundingBoxf3_default := ([], 0) }

/-- Scaling of a bed shape point to integer coordinates (factor 1 here). -/
def samplePoint (v : Vec2 Int) : Point := ⟨v.x, v.y⟩

/-- Collaborators over `Externals.sample`: a catalog with one 250 x 210 bed,
outlines compared point by point, and a collision polygon equal to the
contour. -/
def Collaborators.sample : Collaborators Externals.sample :=
  { catalog :=
      [{ outline := [(⟨0, 0⟩ : Vec2 Int), ⟨250, 0⟩, ⟨250, 210⟩, ⟨0, 210⟩]
         texture := "mk3.svg"
         model := "mk3_bed.stl" }]
    same_outline := fun (a b : List (Vec2 Int)) => decide (a = b)
    to_contour := fun (s : List (Vec2 Int)) => ⟨⟨s.map samplePoint⟩, []⟩
    offset := fun c => c.contour
    init_triangles := fun c => c.contour.points
    init_gridlines := fun c => c.contour.points
    init_contourlines := fun c => c.contour.points
    load_texture := fun path => (path, path)
    load_model := fun path => path
    calc_extended_bounding_box := fun bv _ _ _ => (bv.bed_shape, bv.max_print_height) }

/-- Axes constants over `Externals.sample`. -/
def Axes.Constants.sample : Axes.Constants Externals.sample :=
  { DefaultStemRadius := 1, DefaultStemLength := 25, DefaultTipRadius := 2, DefaultTipLength := 5 }

/-- The square bed of 200 x 200. -/
def sampleSquare : Pointfs Externals.sample :=
  [(⟨0, 0⟩ : Vec2 Int), ⟨200, 0⟩, ⟨200, 200⟩, ⟨0, 200⟩]

/-- The bed outline of the catalog of `Collaborators.sample`. -/
def sampleCatalogued : Pointfs Externals.sample :=
  [(⟨0, 0⟩ : Vec2 Int), ⟨250, 0⟩, ⟨250, 210⟩, ⟨0, 210⟩]

/-- Heights over `Externals.sample`. -/
def sampleHeight (n : Int) : Externals.sample.double := n

/-- A buffer of `n` default vertices. -/
def GeometryBuffer.sample (n : Nat) : GeometryBuffer Externals.sample :=
  { m_vertices := List.replicate n (GeometryBuffer.Vertex.init Externals.sample) }

/-! ## Theorems -/

/-- C1: a change of the print height alone is reported as no change.  From any
bed, after `set_shape(S, h, t, m, f)` the call `set_shape(S, h2, t, m, f)`
with `h2 ≠ h` returns `false`, although it does store the new height in the
build volume. -/
theorem set_shape_height_only_returns_false {E : Externals} (k : Collaborators E)
    (b : Bed3D E) (S : Pointfs E) (h h2 : E.double) (t m : String) (f : Bool)
    (hne : h2 ≠ h) :
    (Bed3D.set_shape k (Bed3D.set_shape k b S h t m f).2 S h2 t m f).1 = false ∧
    (Bed3D.set_shape k (Bed3D.set_shape k b S h t m f).2 S h2 t m f).2.build_volume.max_print_height
      ≠ (Bed3D.set_shape k b S h t m f).2.build_volume.max_print_height := by
  refine ⟨?_, ?_⟩
  · simp [Bed3D.set_shape]
  · simpa [Bed3D.set_shape, Bed3D.build_volume] using hne

/-- Witness of C1 on the 200 x 200 square bed: height 200, then height 100. -/
theorem set_shape_height_only_returns_false_witness :
    sampleHeight 100 ≠ sampleHeight 200 ∧
    (Bed3D.set_shape Collaborators.sample
      (Bed3D.set_shape Collaborators.sample (Bed3D.init Axes.Constants.sample)
        sampleSquare (sampleHeight 200) "" "" false).2
      sampleSquare (sampleHeight 100) "" "" false).1 = false :=
  ⟨by decide,
    (set_shape_height_only_returns_false Collaborators.sample
      (Bed3D.init Axes.Constants.sample) sampleSquare (sampleHeight 200) (sampleHeight 100)
      "" "" false (by decide)).1⟩

/-- C2: `set_shape` is idempotent.  From any bed and for any arguments, a
second call with the same arguments leaves the whole bed (type, filenames,
contour, collision polygon, the three geometries, extended bounding box and
every other member) as the first call left it, and returns `false`. -/
theorem set_shape_idempotent {E : Externals} (k : Collaborators E) (b : Bed3D E)
    (S : Pointfs E) (h : E.double) (t m : String) (f : Bool) :
    (Bed3D.set_shape k (Bed3D.set_shape k b S h t m f).2 S h t m f).2
        = (Bed3D.set_shape k b S h t m f).2 ∧
    (Bed3D.set_shape k (Bed3D.set_shape k b S h t m f).2 S h t m f).1 = false := by
  refine ⟨?_, ?_⟩
  · simp [Bed3D.set_shape]
  · simp [Bed3D.set_shape]

/-- C3: forcing the bed as custom.  For every shape and height, also a shape
of the catalog, after `set_shape(S, h, "", "", true)` the type is Custom and
the stored texture and model filenames are empty. -/
theorem set_shape_force_as_custom {E : Externals} (k : Collaborators E) (b : Bed3D E)
    (S : Pointfs E) (h : E.double) :
    (Bed3D.set_shape k b S h "" "" true).2.get_type = BedType.Custom ∧
    (Bed3D.set_shape k b S h "" "" true).2.is_custom = true ∧
    (Bed3D.set_shape k b S h "" "" true).2.m_texture_filename = "" ∧
    (Bed3D.set_shape k b S h "" "" true).2.m_model_filename = "" := by
  simp [Bed3D.set_shape, Bed3D.get_type, Bed3D.is_custom]

/-- C5: queries on a bed whose shape was never set.  The collision polygon of
a default-constructed bed has no points, `contains` answers `false` for every
point and `point_projection` gives the point back; both are total
functions. -/
theorem init_stale_query {E : Externals} (c : Axes.Constants E)
    (closest : Point → Point × Point → Point) (p : Point) :
    (Bed3D.init c).m_polygon.points = [] ∧
    (call_const (fun b => Bed3D.contains b p) (Bed3D.init c))
      = (false, Bed3D.init c) ∧
    (call_const (fun b => Bed3D.point_projection closest b p) (Bed3D.init c))
      = (p, Bed3D.init c) := by
  refine ⟨rfl, rfl, rfl⟩

/-- C6: `is_custom()` is `true` exactly when `get_type()` is `Type::Custom`
and `false` exactly when it is `Type::System`, the only other value of the
enumeration.  Both accessors are `const`: the bed after a call is the bed
before it. -/
theorem is_custom_iff_get_type {E : Externals} (b : Bed3D E) :
    (b.is_custom = true ↔ b.get_type = BedType.Custom) ∧
    (b.is_custom = false ↔ b.get_type = BedType.System) ∧
    (∀ t : BedType, t = BedType.System ∨ t = BedType.Custom) ∧
    (call_const Bed3D.get_type b).2 = b ∧
    (call_const Bed3D.is_custom b).2 = b := by
  refine ⟨?_, ?_, ?_, rfl, rfl⟩
  · simp [Bed3D.is_custom, Bed3D.get_type]
  · cases hb : b.m_type <;> simp [Bed3D.is_custom, Bed3D.get_type, hb]
  · intro t
    cases t
    · exact Or.inl rfl
    · exact Or.inr rfl

/-- C8: a default-constructed bed has type Custom, empty texture and model
filenames, a zero model offset and scale factor 1. -/
theorem init_is_custom {E : Externals} (c : Axes.Constants E) :
    (Bed3D.init c).get_type = BedType.Custom ∧
    (Bed3D.init c).is_custom = true ∧
    (Bed3D.init c).m_texture_filename = "" ∧
    (Bed3D.init c).m_model_filename = "" ∧
    (Bed3D.init c).m_model_offset = Vec3.Zero E.double_zero ∧
    (Bed3D.init c).m_scale_factor = E.float_one := by
  refine ⟨rfl, rfl, rfl, rfl, rfl, rfl⟩

/-- C9: with `sizeof(float) = 4` a vertex takes 20 bytes and, for a buffer of
`n` vertices, `get_vertices_data_size()` is the product of
`get_vertices_count()` and `get_vertex_data_size()` in 32-bit unsigned
arithmetic, `((n mod 2^32) * 20) mod 2^32`; it is `20 * n` whenever
`20 * n < 2^32`. -/
theorem get_vertices_data_size_eq {E : Externals} (g : GeometryBuffer E) :
    GeometryBuffer.get_vertex_data_size 4 = 20 ∧
    g.get_vertices_data_size 4
      = (g.get_vertices_count * GeometryBuffer.get_vertex_data_size 4) % 2 ^ 32 ∧
    g.get_vertices_data_size 4 = ((g.m_vertices.length % 2 ^ 32) * 20) % 2 ^ 32 ∧
    (20 * g.m_vertices.length < 2 ^ 32 →
      g.get_vertices_data_size 4 = 20 * g.m_vertices.length) := by
  have h20 : GeometryBuffer.get_vertex_data_size 4 = 20 := by
    simp [GeometryBuffer.get_vertex_data_size, toUInt, toSize, UINT_BITS, SIZE_BITS]
  refine ⟨h20, ?_, ?_, ?_⟩
  · simp [GeometryBuffer.get_vertices_data_size, GeometryBuffer.get_vertices_count, toUInt,
      UINT_BITS]
  · simp [GeometryBuffer.get_vertices_data_size, GeometryBuffer.size, h20, toUInt, UINT_BITS]
  · intro hlt
    simp only [GeometryBuffer.get_vertices_data_size, GeometryBuffer.size, h20, toUInt,
      UINT_BITS]
    omega

/-- Witness of C9: a buffer of three vertices takes 60 bytes. -/
theorem get_vertices_data_size_eq_witness :
    20 * (GeometryBuffer.sample 3).m_vertices.length < 2 ^ 32 ∧
    (GeometryBuffer.sample 3).get_vertices_data_size 4
      = 20 * (GeometryBuffer.sample 3).m_vertices.length :=
  ⟨by decide, (get_vertices_data_size_eq (GeometryBuffer.sample 3)).2.2.2 (by decide)⟩

/-- C10: `set_stem_length(l)` makes `get_total_length()` return
`l + DefaultTipLength` and keeps the origin; `set_origin(o)` makes
`get_origin()` return `o` and keeps the total length; fresh axes have origin
zero and total length `DefaultStemLength + DefaultTipLength`. -/
theorem axes_setters_frame {E : Externals} (c : Axes.Constants E) (a : Axes E)
    (l : E.float) (o : Vec3 E.double) :
    (a.set_stem_length l).get_total_length c = E.float_add l c.DefaultTipLength ∧
    (a.set_stem_length l).get_origin = a.get_origin ∧
    (a.set_origin o).get_origin = o ∧
    (a.set_origin o).get_total_length c = a.get_total_length c ∧
    (Axes.init c).get_origin = Vec3.Zero E.double_zero ∧
    (Axes.init c).get_total_length c
      = E.float_add c.DefaultStemLength c.DefaultTipLength := by
  refine ⟨rfl, rfl, rfl, rfl, rfl, rfl⟩

end Slic3r.GUI
